import Mathlib

/-!
Verification of `src/prefect/runner/storage.py` — the git-backed runner
storage component (`GitRepository`, `_format_token_from_credentials`,
`_strip_auth_from_url`).

Shallow embedding conventions:
* Python strings are `String`; a dictionary key that may be absent is an
  `Option`; raising `ValueError`/`RuntimeError` is `Except.error` carrying
  the message.
* URL strings enter the embedding in the component form produced by
  Python's `urllib.parse.urlparse` (`PyUrl` below); `renderUrl` is the raw
  string such components were parsed from, and `urlunparse` models
  `urllib.parse.urlunparse`.
* The filesystem and the external `git` process are modelled by passing the
  observable facts (`destination/.git` exists?, configured remote URL,
  process exit code) as explicit arguments; `pull_code` is embedded as the
  decision function from those facts to the single git command issued or
  the error raised.
-/

namespace RunnerStorage

/-- Python's substring test `needle in haystack`, on the character lists of
the two strings. -/
def listContainsSub (needle : List Char) : List Char → Bool
  | [] => needle.isEmpty
  | c :: rest => needle.isPrefixOf (c :: rest) || listContainsSub needle rest

/-- Python `needle in haystack` for `str`. -/
def pyIn (needle haystack : String) : Bool :=
  listContainsSub needle.data haystack.data

/-- Python `s.startswith(pre)`. -/
def pyStartsWith (s pre : String) : Bool :=
  pre.data.isPrefixOf s.data

/-- Python truthiness of an optional string field: an absent key and the
empty string are falsy. -/
def pyTruthyOpt : Option String → Bool
  | none => false
  | some s => s != ""

/-- Python `s.lower()`.  `Char.toLower` performs exactly the ASCII case
folding Python applies to the basic-latin hostnames handled here. -/
def pyLower (s : String) : String :=
  ⟨s.data.map Char.toLower⟩

/-- Python `s.replace(pat, repl)`: replace all non-overlapping occurrences,
scanning left to right.  Fuel-indexed so that it computes by kernel
reduction; the fuel is the length of the scanned list. -/
def replaceAllAux (pat repl : List Char) : Nat → List Char → List Char
  | 0, l => l
  | _ + 1, [] => []
  | fuel + 1, c :: cs =>
    if pat ≠ [] ∧ pat.isPrefixOf (c :: cs) then
      repl ++ replaceAllAux pat repl fuel ((c :: cs).drop pat.length)
    else
      c :: replaceAllAux pat repl fuel cs

/-- Python `s.replace(pat, repl)` for `str` (non-empty `pat`). -/
def pyReplace (s pat repl : String) : String :=
  ⟨replaceAllAux pat.data repl.data s.data.length s.data⟩

/-- Python `s.split("/")[-1]`: the substring after the last `/` (the whole
string when there is no `/`). -/
def lastSlashSegment (s : String) : String :=
  ⟨(s.data.splitOn '/').getLastD []⟩

/-- Python `repr` of a `str` (`!r` in an f-string), for strings without
quotes or escape characters — the shape of the URLs handled here. -/
def pyRepr (s : String) : String :=
  "'" ++ s ++ "'"

/-- The authority (netloc) component of a URL as parsed by
`urllib.parse.urlparse`: optional user-info, host, optional numeric port. -/
structure Netloc where
  userinfo : Option String
  host : String
  port : Option Nat
deriving DecidableEq, Repr

/-- The raw netloc string these components were parsed from. -/
def renderNetloc (n : Netloc) : String :=
  (match n.userinfo with
    | some ui => ui ++ "@"
    | none => "")
    ++ n.host
    ++ (match n.port with
      | some p => ":" ++ toString p
      | none => "")

/-- Python `parsed.hostname`: the host of the authority component,
lowercased (urllib documents the attribute as always lowercase). -/
def pyHostname (n : Netloc) : String :=
  pyLower n.host

/-- A URL in the six-component form produced by `urllib.parse.urlparse`. -/
structure PyUrl where
  scheme : String
  netloc : Netloc
  path : String
  params : String
  query : String
  fragment : String
deriving DecidableEq, Repr

/-- `urllib.parse.urlunparse` on a six-tuple whose netloc is given as a raw
string.  Faithful for components produced by `urlparse` (path empty or
beginning with a slash). -/
def urlunparse (scheme netlocStr path params query fragment : String) : String :=
  let url := if params != "" then path ++ ";" ++ params else path
  let url :=
    if netlocStr != "" || (url != "" && pyStartsWith url "//") then
      "//" ++ netlocStr ++ url
    else url
  let url := if scheme != "" then scheme ++ ":" ++ url else url
  let url := if query != "" then url ++ "?" ++ query else url
  if fragment != "" then url ++ "#" ++ fragment else url

/-- The raw URL string a `PyUrl` was parsed from. -/
def renderUrl (u : PyUrl) : String :=
  urlunparse u.scheme (renderNetloc u.netloc) u.path u.params u.query u.fragment

/-- `_strip_auth_from_url` (storage.py lines 357-375): rebuild the URL with
the netloc replaced by `parsed.hostname` plus the port when the port is
truthy (`if parsed.port:` — a port of `0` is falsy and is dropped). -/
def stripAuthFromUrl (u : PyUrl) : String :=
  let netloc := pyHostname u.netloc
    ++ (match u.netloc.port with
      | some p => if p ≠ 0 then ":" ++ toString p else ""
      | none => "")
  urlunparse u.scheme netloc u.path u.params u.query u.fragment

/-- The parsed components of `_strip_auth_from_url`'s output URL. -/
def stripAuthUrl (u : PyUrl) : PyUrl :=
  { u with
    netloc :=
      ⟨none, pyHostname u.netloc,
        match u.netloc.port with
        | some p => if p ≠ 0 then some p else none
        | none => none⟩ }

/-- Modelled from the spec: `prefect.blocks.system.Secret` (the credential
resolver collaborator, not under `src/`) — a secret-store-backed value.
`get` resolves it to the plaintext `value`; `get_block_placeholder()`
produces "a non-secret placeholder token referencing this secret", held
here abstractly as `placeholderRef`. -/
structure SecretBlock where
  placeholderRef : String
  value : String
deriving DecidableEq, Repr

/-- `Secret.get()`: resolve to the plaintext secret. -/
def SecretBlock.get (s : SecretBlock) : String :=
  s.value

/-- The value stored under the `access_token` key of a credentials
dictionary: a raw string or a `Secret` block. -/
inductive TokenValue
  | str (s : String)
  | secret (b : SecretBlock)
deriving DecidableEq, Repr

/-- Python truthiness of an `access_token` value: an empty string is falsy,
a `Secret` object is always truthy. -/
def TokenValue.pyBool : TokenValue → Bool
  | .str s => s != ""
  | .secret _ => true

/-- The credentials dictionary: the `GitCredentials` keys plus the `token`
and `password` keys read by `_format_token_from_credentials`.  An absent
key is `none`. -/
structure CredDict where
  username : Option String := none
  password : Option String := none
  token : Option String := none
  access_token : Option TokenValue := none
deriving DecidableEq, Repr

/-- Whether the dictionary is empty (Python falsiness of a `dict`). -/
def CredDict.isEmptyDict (d : CredDict) : Bool :=
  d.username.isNone && d.password.isNone && d.token.isNone && d.access_token.isNone

/-- Modelled from the spec: a credentials `Block` (`prefect.blocks.core`,
not under `src/`).  `.dict()` yields its fields as a credentials
dictionary; `get_block_placeholder()` yields a placeholder reference to
the stored block document. -/
structure BlockCreds where
  toDict : CredDict
  placeholderRef : String
deriving DecidableEq, Repr

/-- The `credentials` attribute after `__init__` normalised `None` to `{}`:
either a `Block` or a plain dictionary. -/
inductive Credentials
  | block (b : BlockCreds)
  | dict (d : CredDict)
deriving DecidableEq, Repr

/-- Python truthiness of the stored credentials: a `Block` instance is
truthy, a dictionary is truthy iff non-empty. -/
def Credentials.pyBool : Credentials → Bool
  | .block _ => true
  | .dict d => !d.isEmptyDict

/-- The dictionary the credentials reduce to: `credentials.dict()` on a
`Block`, the dictionary itself otherwise. -/
def Credentials.asDict : Credentials → CredDict
  | .block b => b.toDict
  | .dict d => d

/-- The `isinstance(access_token, Secret)` resolution step of
`_repository_url_with_credentials`: a `Secret` access token is replaced by
its `.get()` value. -/
def resolveAccessToken : Option TokenValue → Option String
  | some (.secret s) => some s.get
  | some (.str s) => some s
  | none => none

/-- Python `x or y or ...` over optional string fields: the first truthy
value, `none` when all are falsy. -/
def firstTruthy : List (Option String) → Option String
  | [] => none
  | x :: xs =>
    match x with
    | some s => if s != "" then some s else firstTruthy xs
    | none => firstTruthy xs

/-- `_format_token_from_credentials` (storage.py lines 298-354).  The four
optional fields are the `.get` reads of the caller's dictionary (any
`Secret` access token already resolved to `str` by the caller). -/
def formatTokenFromCredentials (netloc : String)
    (username password token access_token : Option String) :
    Except String String :=
  -- user_provided_token = access_token or token or password; falsy ⇒ raise
  match firstTruthy [access_token, token, password] with
  | none =>
    .error "Please provide a `token` or `password` in your Credentials block to clone a repo."
  | some user_provided_token =>
    let usernameStr := username.getD ""
    if pyTruthyOpt username then
      .ok (usernameStr ++ ":" ++ user_provided_token)
    else if pyIn "bitbucketserver" netloc then
      if !pyTruthyOpt username && !pyIn ":" user_provided_token then
        .error "Please provide a `username` and a `password` or `token` in your BitBucketCredentials block to clone a repo from BitBucket Server."
      else
        .ok (if pyTruthyOpt username && !pyIn usernameStr user_provided_token then
            usernameStr ++ ":" ++ user_provided_token
          else user_provided_token)
    else if pyIn "bitbucket" netloc then
      .ok (if pyStartsWith user_provided_token "x-token-auth:" || pyIn ":" user_provided_token then
          user_provided_token
        else "x-token-auth:" ++ user_provided_token)
    else if pyIn "gitlab" netloc then
      .ok (if !pyStartsWith user_provided_token "oauth2:" then
          "oauth2:" ++ user_provided_token
        else user_provided_token)
    else
      .ok user_provided_token

/-- A local directory path (`pathlib.Path`), as its segments; `/` on paths
appends a segment. -/
abbrev DirPath := List String

/-- `str(path)`. -/
def renderPath (p : DirPath) : String :=
  String.intercalate "/" p

/-- The `GitRepository` object's attributes after `__init__`. -/
structure GitRepository where
  url : String
  urlParsed : PyUrl
  branch : Option String
  credentials : Credentials
  include_submodules : Bool
  name : String
  storage_base_path : DirPath
  pull_interval : Option Nat
deriving DecidableEq, Repr

/-- `GitRepository.__init__` (storage.py lines 98-127).  The caller's URL
string is supplied in parsed component form `url`; the attribute `_url`
stores its raw rendering.  `Path.cwd()` is supplied as the `cwd` argument
(the process working directory at construction).  The logger has no
observable state and is omitted. -/
def mkGitRepository (url : PyUrl) (credentials : Option Credentials)
    (name branch : Option String) (include_submodules : Bool)
    (pull_interval : Option Nat) (cwd : DirPath) :
    Except String GitRepository :=
  -- credentials = {} when None
  let creds := match credentials with
    | none => Credentials.dict {}
    | some c => c
  -- isinstance(credentials, dict) and credentials.get("username")
  --   and not credentials.get("access_token")
  let badUsername := match creds with
    | .dict d =>
      pyTruthyOpt d.username
        && !(match d.access_token with
          | some t => t.pyBool
          | none => false)
    | .block _ => false
  if badUsername then
    .error "If a username is provided, an access token must also be provided."
  else
    let repo_name := pyReplace (lastSlashSegment url.path) ".git" ""
    let default_name := match branch with
      | some b => if b != "" then repo_name ++ "-" ++ b else repo_name
      | none => repo_name
    .ok
      { url := renderUrl url
        urlParsed := url
        branch := branch
        credentials := creds
        include_submodules := include_submodules
        name := match name with
          | some n => if n != "" then n else default_name
          | none => default_name
        storage_base_path := cwd
        pull_interval := pull_interval }

/-- The `destination` property: `self._storage_base_path / self._name`. -/
def GitRepository.destination (g : GitRepository) : DirPath :=
  g.storage_base_path ++ [g.name]

/-- `set_base_path` (storage.py lines 133-134). -/
def GitRepository.setBasePath (g : GitRepository) (path : DirPath) : GitRepository :=
  { g with storage_base_path := path }

/-- `_repository_url_with_credentials` (storage.py lines 140-166). -/
def GitRepository.repositoryUrlWithCredentials (g : GitRepository) :
    Except String String :=
  if !g.credentials.pyBool then
    .ok g.url
  else
    let d := g.credentials.asDict
    match formatTokenFromCredentials (renderNetloc g.urlParsed.netloc)
        d.username d.password d.token (resolveAccessToken d.access_token) with
    | .error e => .error e
    | .ok formatted =>
      if g.urlParsed.scheme == "https" then
        .ok (urlunparse g.urlParsed.scheme
          (formatted ++ "@" ++ renderNetloc g.urlParsed.netloc)
          g.urlParsed.path g.urlParsed.params g.urlParsed.query g.urlParsed.fragment)
      else
        .ok g.url

/-- The single git command `pull_code` hands to `run_process`. -/
inductive GitCommand
  | cloneCmd (args : List String)
  | pullCmd (args : List String)
deriving DecidableEq, Repr

/-- `pull_code` (storage.py lines 168-232) as a function of the observable
environment: whether `destination/.git` exists, and the existing working
copy's `remote.origin.url` — the whitespace-stripped stdout of
`git config --get remote.origin.url`, in parsed form (`none` models a
missing stdout).  The result is the git command issued, or the message of
the `ValueError` raised on mismatch / the error propagated while building
the clone URL. -/
def GitRepository.pullCode (g : GitRepository) (gitDirExists : Bool)
    (remoteOriginUrl : Option PyUrl) : Except String GitCommand :=
  if gitDirExists then
    let existing_repo_url : Option String := remoteOriginUrl.map stripAuthFromUrl
    if existing_repo_url != some g.url then
      .error ("The existing repository at " ++ renderPath g.destination
        ++ " does not match the configured repository " ++ g.url)
    else
      .ok (.pullCmd (["git", "pull", "origin"]
        ++ (match g.branch with
          | some b => if b != "" then [b] else []
          | none => [])
        ++ (if g.include_submodules then ["--recurse-submodules"] else [])
        ++ ["--depth", "1"]))
  else
    match g.repositoryUrlWithCredentials with
    | .error e => .error e
    | .ok repository_url =>
      .ok (.cloneCmd (["git", "clone", repository_url]
        ++ (match g.branch with
          | some b => if b != "" then ["--branch", b] else []
          | none => [])
        ++ (if g.include_submodules then ["--recurse-submodules"] else [])
        ++ ["--depth", "1", renderPath g.destination]))

/-- A `subprocess.CalledProcessError` from the external git process: the
failing command line and its exit code. -/
structure CalledProcessError where
  cmd : List String
  returncode : Int
deriving DecidableEq, Repr

/-- A raised Python error: its message and its `__cause__` chain
(`raise ... from exc_chain`). -/
structure RaisedError where
  message : String
  cause : Option CalledProcessError
deriving DecidableEq, Repr

/-- The `except subprocess.CalledProcessError` handler of `pull_code`
(storage.py lines 224-232): the `RuntimeError` raised when the external
clone process exits non-zero. -/
def GitRepository.cloneFailureError (g : GitRepository)
    (exc : CalledProcessError) : RaisedError :=
  { message := "Failed to clone repository " ++ pyRepr g.url
      ++ " with exit code " ++ toString exc.returncode ++ "."
    -- exc_chain = None if self._credentials else exc
    cause := if g.credentials.pyBool then none else some exc }

/-- `__eq__` (storage.py lines 234-241), on two `GitRepository` values. -/
def GitRepository.eqDescriptor (a b : GitRepository) : Bool :=
  a.url == b.url && a.branch == b.branch && a.name == b.name

/-- The `credentials` entry of the emitted pull step: either the rendered
block placeholder string, or the spread credentials dictionary with the
`access_token` key replaced by a placeholder string. -/
inductive StepCredentials
  | blockPlaceholder (s : String)
  | inlineDict (username password token : Option String) (access_token : String)
deriving DecidableEq, Repr

/-- The mapping under the `prefect.deployments.steps.git_clone` key of the
emitted pull step. -/
structure PullStep where
  repository : String
  branch : Option String
  credentials : Option StepCredentials
deriving DecidableEq, Repr

/-- `to_pull_step` (storage.py lines 249-275). -/
def GitRepository.toPullStep (g : GitRepository) : Except String PullStep :=
  match g.credentials with
  | .block b =>
    .ok { repository := g.url, branch := g.branch
          credentials := some (.blockPlaceholder
            ("\x7b\x7b " ++ b.placeholderRef ++ " \x7d\x7d")) }
  | .dict d =>
    match d.access_token with
    | some (.secret s) =>
      .ok { repository := g.url, branch := g.branch
            credentials := some (.inlineDict d.username d.password d.token
              ("\x7b\x7b " ++ s.placeholderRef ++ " \x7d\x7d")) }
    | some (.str _) =>
      .error "Please save your access token as a Secret block before converting this storage object to a pull step."
    | none =>
      .ok { repository := g.url, branch := g.branch, credentials := none }

/-! Concrete fixtures used to instantiate the theorems below. -/

/-- `urlparse("https://example.com/org/repo.git")`. -/
def exampleUrl : PyUrl :=
  ⟨"https", ⟨none, "example.com", none⟩, "/org/repo.git", "", "", ""⟩

/-- `urlparse("ssh://example.com/org/repo.git")`. -/
def exampleUrlSsh : PyUrl :=
  ⟨"ssh", ⟨none, "example.com", none⟩, "/org/repo.git", "", "", ""⟩

/-- A descriptor for `exampleUrl` with no credentials. -/
def exampleRepo : GitRepository :=
  { url := "https://example.com/org/repo.git"
    urlParsed := exampleUrl
    branch := none
    credentials := .dict {}
    include_submodules := false
    name := "repo"
    storage_base_path := ["", "opt", "runner"]
    pull_interval := some 60 }

/-- The same descriptor with a raw inline access token. -/
def exampleRepoTok : GitRepository :=
  { exampleRepo with credentials := .dict { access_token := some (.str "s3cret") } }

/-- The same descriptor with a secret-store-backed access token. -/
def exampleRepoSecret : GitRepository :=
  { exampleRepo with
    credentials := .dict { access_token := some (.secret ⟨"prefect.blocks.secret.my-token", "s3cret"⟩) } }

/-- The same descriptor with a credentials `Block`. -/
def exampleRepoBlock : GitRepository :=
  { exampleRepo with
    credentials := .block ⟨{ token := some "s3cret" }, "prefect.blocks.github-credentials.gh"⟩ }

/-- A descriptor for the ssh URL with a raw inline access token. -/
def exampleRepoSsh : GitRepository :=
  { url := "ssh://example.com/org/repo.git"
    urlParsed := exampleUrlSsh
    branch := none
    credentials := .dict { access_token := some (.str "tok") }
    include_submodules := false
    name := "repo"
    storage_base_path := ["", "opt", "runner"]
    pull_interval := some 60 }

/-- The descriptor `GitRepository.__init__` builds for `exampleUrl` with all
arguments defaulted and the working directory `["", "opt"]`. -/
def exampleRepoCwd : GitRepository :=
  { url := "https://example.com/org/repo.git"
    urlParsed := exampleUrl
    branch := none
    credentials := .dict {}
    include_submodules := false
    name := "repo"
    storage_base_path := ["", "opt"]
    pull_interval := some 60 }

/-! Helper lemmas. -/

theorem charToNat_ofNat_valid (n : Nat) (h : n.isValidChar) :
    (Char.ofNat n).toNat = n := by
  simp [Char.ofNat, dif_pos h, Char.ofNatAux, Char.toNat, UInt32.toNat]

theorem charToLower_idem (c : Char) : c.toLower.toLower = c.toLower := by
  unfold Char.toLower
  by_cases h : c.toNat ≥ 65 ∧ c.toNat ≤ 90
  · rw [if_pos h]
    have hv : (c.toNat + 32).isValidChar := Or.inl (by omega)
    rw [charToNat_ofNat_valid _ hv, if_neg (by omega)]
  · rw [if_neg h, if_neg h]

theorem pyLower_idem (s : String) : pyLower (pyLower s) = pyLower s := by
  unfold pyLower
  refine congrArg String.mk ?_
  show (s.data.map Char.toLower).map Char.toLower = s.data.map Char.toLower
  rw [List.map_map]
  exact List.map_congr_left fun c _ => charToLower_idem c

theorem string_append_inj_right (r b1 b2 : String)
    (h : r ++ "-" ++ b1 = r ++ "-" ++ b2) : b1 = b2 := by
  have h2 := congrArg String.data h
  simp only [String.data_append] at h2
  exact String.ext (List.append_cancel_left h2)

theorem string_ne_append_dash (r b : String) (hb : b ≠ "") :
    r ≠ r ++ "-" ++ b := by
  intro h
  have h2 := congrArg (fun s => s.data.length) h
  simp only [String.data_append, List.length_append] at h2
  have hbpos : 0 < b.data.length := by
    cases hd : b.data with
    | nil => exact absurd (String.ext hd) hb
    | cons c cs => simp [hd]
  omega

/-- The `repo_name`/`default_name` derivation is injective in the branch. -/
theorem defaultName_inj (r : String) (b1 b2 : String) (hne : b1 ≠ b2) :
    (if b1 != "" then r ++ "-" ++ b1 else r)
      ≠ (if b2 != "" then r ++ "-" ++ b2 else r) := by
  by_cases h1 : b1 = ""
  · by_cases h2 : b2 = ""
    · exact absurd (h1.trans h2.symm) hne
    · subst h1
      rw [if_neg (by simp), if_pos (bne_iff_ne.mpr h2)]
      exact string_ne_append_dash r b2 h2
  · by_cases h2 : b2 = ""
    · subst h2
      rw [if_pos (bne_iff_ne.mpr h1), if_neg (by simp)]
      exact fun h => string_ne_append_dash r b1 h1 h.symm
    · rw [if_pos (bne_iff_ne.mpr h1), if_pos (bne_iff_ne.mpr h2)]
      exact fun h => hne (string_append_inj_right r b1 b2 h)

/-! Claim theorems. -/

/-- C1, counterexample: a descriptor with credentials configured whose clone
fails with exit code 128 raises an error whose message **does** include the
repository URL (the claim says it never does). -/
theorem claim_C1_cex :
    (mkGitRepository ⟨"https", ⟨none, "example.com", none⟩, "/org/repo.git", "", "", ""⟩
        (some (.dict { access_token := some (.str "s3cret") })) none none false (some 60)
        ["", "opt"]).map
      (fun g =>
        pyIn g.url (g.cloneFailureError
          ⟨["git", "clone", "https://s3cret@example.com/org/repo.git", "--depth", "1"], 128⟩).message
        && g.credentials.pyBool)
      = .ok true := by
  rfl

/-- C1, amended: on clone failure the raised error's message is built only
from the configured URL and the exit code — it never includes the git
command line (in particular not the credential-injected URL), but it does
include the configured repository URL — and the underlying cause chain is
attached exactly when no credentials were configured. -/
theorem claim_C1 (g : GitRepository) (exc : CalledProcessError) :
    (g.cloneFailureError exc).message
        = "Failed to clone repository " ++ pyRepr g.url ++ " with exit code "
          ++ toString exc.returncode ++ "."
    ∧ (∃ pre post, (g.cloneFailureError exc).message = pre ++ g.url ++ post)
    ∧ (∀ exc' : CalledProcessError, exc'.returncode = exc.returncode →
        (g.cloneFailureError exc').message = (g.cloneFailureError exc).message)
    ∧ (g.credentials.pyBool = true → (g.cloneFailureError exc).cause = none)
    ∧ (g.credentials.pyBool = false → (g.cloneFailureError exc).cause = some exc) := by
  refine ⟨rfl,
    ⟨"Failed to clone repository " ++ "'",
      "'" ++ (" with exit code " ++ (toString exc.returncode ++ ".")), ?_⟩,
    ?_, ?_, ?_⟩
  · simp only [GitRepository.cloneFailureError, pyRepr, String.append_assoc]
  · intro exc' h
    simp only [GitRepository.cloneFailureError, h]
  · intro h
    simp only [GitRepository.cloneFailureError, h, if_true]
  · intro h
    simp only [GitRepository.cloneFailureError, h, Bool.false_eq_true, if_false]

/-- C1, witness for the amended theorem at concrete inputs. -/
theorem claim_C1_witness :
    (exampleRepoTok.cloneFailureError ⟨[], 128⟩).cause = none
    ∧ (exampleRepo.cloneFailureError ⟨[], 128⟩).cause = some ⟨[], 128⟩
    ∧ ∃ pre post,
        (exampleRepoTok.cloneFailureError ⟨[], 128⟩).message
          = pre ++ exampleRepoTok.url ++ post := by
  obtain ⟨_, hmem, _, hcause, _⟩ := claim_C1 exampleRepoTok ⟨[], 128⟩
  obtain ⟨_, _, _, _, hnone⟩ := claim_C1 exampleRepo ⟨[], 128⟩
  exact ⟨hcause rfl, hnone rfl, hmem⟩

/-- C7, counterexample: sanitizing a URL with embedded user-info and an
upper-case host yields a URL whose host is lowercased, so the result is not
the same URL with only the user-info removed — host is not preserved
verbatim. -/
theorem claim_C7_cex :
    stripAuthFromUrl ⟨"https", ⟨some "user:pass", "EXAMPLE.com", none⟩, "/Repo.git", "", "", ""⟩
      = "https://example.com/Repo.git"
    ∧ "https://example.com/Repo.git"
      ≠ renderUrl ⟨"https", ⟨none, "EXAMPLE.com", none⟩, "/Repo.git", "", "", ""⟩ := by
  exact ⟨rfl, by decide⟩

/-- Component-level idempotence of the sanitizer. -/
theorem stripAuthUrl_idem (u : PyUrl) :
    stripAuthUrl (stripAuthUrl u) = stripAuthUrl u := by
  obtain ⟨sch, ⟨ui, host, port⟩, pth, prm, qry, frg⟩ := u
  unfold stripAuthUrl pyHostname
  dsimp only
  rw [pyLower_idem]
  cases port with
  | none => rfl
  | some p =>
    by_cases h0 : p = 0
    · simp [h0]
    · simp [h0]

/-- `_strip_auth_from_url` renders exactly the components `stripAuthUrl`
describes. -/
theorem stripAuthFromUrl_eq_render (u : PyUrl) :
    stripAuthFromUrl u = renderUrl (stripAuthUrl u) := by
  unfold stripAuthFromUrl stripAuthUrl renderUrl renderNetloc pyHostname
  cases hp : u.netloc.port with
  | none => rfl
  | some p =>
    by_cases h0 : p = 0
    · simp [h0]
    · simp [h0]

/-- C7, amended: the URL sanitizer removes user-info from the authority and
preserves scheme, path, params, query and fragment verbatim, but the host
only up to ASCII lowercasing (and a port of `0` is dropped); it is
idempotent (also on the rendered string), and on a URL whose host is
already lowercase (with no zero port) sanitizing equals the same URL
without its user-info. -/
theorem claim_C7 (u : PyUrl) :
    stripAuthUrl (stripAuthUrl u) = stripAuthUrl u
    ∧ stripAuthFromUrl (stripAuthUrl u) = stripAuthFromUrl u
    ∧ ((stripAuthUrl u).scheme = u.scheme ∧ (stripAuthUrl u).path = u.path
      ∧ (stripAuthUrl u).params = u.params ∧ (stripAuthUrl u).query = u.query
      ∧ (stripAuthUrl u).fragment = u.fragment
      ∧ (stripAuthUrl u).netloc.userinfo = none
      ∧ (stripAuthUrl u).netloc.host = pyLower u.netloc.host)
    ∧ stripAuthFromUrl u = renderUrl (stripAuthUrl u)
    ∧ (pyLower u.netloc.host = u.netloc.host → u.netloc.port ≠ some 0 →
      stripAuthFromUrl u = renderUrl { u with netloc := { u.netloc with userinfo := none } }) := by
  refine ⟨stripAuthUrl_idem u, ?_, ⟨rfl, rfl, rfl, rfl, rfl, rfl, rfl⟩,
    stripAuthFromUrl_eq_render u, ?_⟩
  · rw [stripAuthFromUrl_eq_render, stripAuthUrl_idem, ← stripAuthFromUrl_eq_render]
  · intro hlow hport
    unfold stripAuthFromUrl renderUrl renderNetloc pyHostname
    rw [hlow]
    cases hp : u.netloc.port with
    | none => rfl
    | some p =>
      have h0 : p ≠ 0 := fun h => hport (by rw [hp, h])
      simp [h0]

/-- C7, witness for the amended theorem at a concrete URL. -/
theorem claim_C7_witness :
    stripAuthFromUrl ⟨"https", ⟨some "user:pass", "example.com", some 8443⟩, "/org/repo.git", "", "q=1", "frag"⟩
      = renderUrl ⟨"https", ⟨none, "example.com", some 8443⟩, "/org/repo.git", "", "q=1", "frag"⟩ := by
  exact (claim_C7 ⟨"https", ⟨some "user:pass", "example.com", some 8443⟩, "/org/repo.git", "", "q=1", "frag"⟩).2.2.2.2
    (by decide) (by decide)

/-- C2: `pull_code` is a three-way state machine on the destination — no
working copy ⇒ a depth-1 clone; a working copy whose credential-stripped
remote URL equals the configured url ⇒ a depth-1 pull; a differing stripped
remote URL ⇒ a mismatch error and no git command. -/
theorem claim_C2 (g : GitRepository) (remote : Option PyUrl) :
    (∀ u, g.repositoryUrlWithCredentials = .ok u →
      ∃ rest, g.pullCode false remote = .ok (.cloneCmd ("git" :: "clone" :: u :: rest))
        ∧ ["--depth", "1", renderPath g.destination] <:+ ("git" :: "clone" :: u :: rest))
    ∧ (∀ r, remote = some r → stripAuthFromUrl r = g.url →
      ∃ args, g.pullCode true remote = .ok (.pullCmd args)
        ∧ args.take 3 = ["git", "pull", "origin"] ∧ ["--depth", "1"] <:+ args)
    ∧ (remote.map stripAuthFromUrl ≠ some g.url →
      ∃ msg, g.pullCode true remote = .error msg) := by
  refine ⟨?_, ?_, ?_⟩
  · intro u hu
    unfold GitRepository.pullCode
    rw [if_neg (by simp), hu]
    refine ⟨(match g.branch with
        | some b => if b != "" then ["--branch", b] else []
        | none => [])
      ++ (if g.include_submodules then ["--recurse-submodules"] else [])
      ++ ["--depth", "1", renderPath g.destination], by simp, ?_⟩
    exact ⟨"git" :: "clone" :: u ::
      ((match g.branch with
        | some b => if b != "" then ["--branch", b] else []
        | none => [])
      ++ (if g.include_submodules then ["--recurse-submodules"] else [])), by simp⟩
  · intro r hr hstrip
    subst hr
    unfold GitRepository.pullCode
    rw [if_pos rfl]
    rw [if_neg (by simp [hstrip])]
    refine ⟨_, rfl, by simp [List.take_succ_cons], ?_⟩
    exact ⟨["git", "pull", "origin"]
      ++ (match g.branch with
        | some b => if b != "" then [b] else []
        | none => [])
      ++ (if g.include_submodules then ["--recurse-submodules"] else []), by simp⟩
  · intro hne
    unfold GitRepository.pullCode
    rw [if_pos rfl, if_pos (bne_iff_ne.mpr hne)]
    exact ⟨_, rfl⟩

/-- C2, witness at a concrete descriptor: a clone on a missing working
copy, a pull on a matching one, an error on a mismatching one. -/
theorem claim_C2_witness :
    (∃ rest, exampleRepo.pullCode false none
        = .ok (.cloneCmd ("git" :: "clone" :: exampleRepo.url :: rest))
      ∧ ["--depth", "1", renderPath exampleRepo.destination]
          <:+ ("git" :: "clone" :: exampleRepo.url :: rest))
    ∧ (∃ args, exampleRepo.pullCode true (some exampleUrl) = .ok (.pullCmd args)
      ∧ args.take 3 = ["git", "pull", "origin"] ∧ ["--depth", "1"] <:+ args)
    ∧ (∃ msg, exampleRepo.pullCode true none = .error msg) := by
  refine ⟨(claim_C2 exampleRepo none).1 exampleRepo.url rfl,
    (claim_C2 exampleRepo (some exampleUrl)).2.1 exampleUrl rfl rfl,
    (claim_C2 exampleRepo none).2.2 (by decide)⟩

/-- C10: with credentials configured (and formattable) but a non-https URL
scheme, `_repository_url_with_credentials` returns the configured URL
unchanged, and the clone command uses that unchanged URL — the credentials
are silently not applied. -/
theorem claim_C10 (g : GitRepository) (remote : Option PyUrl) (tok : String)
    (h1 : g.credentials.pyBool = true)
    (h2 : g.urlParsed.scheme ≠ "https")
    (h3 : formatTokenFromCredentials (renderNetloc g.urlParsed.netloc)
        g.credentials.asDict.username g.credentials.asDict.password
        g.credentials.asDict.token (resolveAccessToken g.credentials.asDict.access_token)
      = .ok tok) :
    g.repositoryUrlWithCredentials = .ok g.url
    ∧ ∃ rest, g.pullCode false remote = .ok (.cloneCmd ("git" :: "clone" :: g.url :: rest)) := by
  have hr : g.repositoryUrlWithCredentials = .ok g.url := by
    unfold GitRepository.repositoryUrlWithCredentials
    rw [if_neg (by simp [h1])]
    dsimp only
    rw [h3]
    dsimp only
    rw [if_neg (by simpa using h2)]
  refine ⟨hr, ?_⟩
  unfold GitRepository.pullCode
  rw [if_neg (by simp), hr]
  exact ⟨(match g.branch with
      | some b => if b != "" then ["--branch", b] else []
      | none => [])
    ++ (if g.include_submodules then ["--recurse-submodules"] else [])
    ++ ["--depth", "1", renderPath g.destination], by simp⟩

/-- C10, witness: an ssh-scheme descriptor with a raw token clones with the
configured URL unchanged. -/
theorem claim_C10_witness :
    exampleRepoSsh.repositoryUrlWithCredentials = .ok exampleRepoSsh.url
    ∧ ∃ rest, exampleRepoSsh.pullCode false none
        = .ok (.cloneCmd ("git" :: "clone" :: exampleRepoSsh.url :: rest)) := by
  exact claim_C10 exampleRepoSsh none "tok" (by decide) (by decide) rfl

/-- C3: `to_pull_step` never embeds a plaintext secret — a `Block` or a
secret-backed inline access token is emitted only as a placeholder string
(the output is independent of the stored secret values), and a raw inline
access token makes `to_pull_step` fail with the instruction to store the
token in a secret store first. -/
theorem claim_C3 (g : GitRepository) :
    (∀ b, g.credentials = .block b →
      g.toPullStep = .ok { repository := g.url, branch := g.branch,
                           credentials := some (.blockPlaceholder
                             ("\x7b\x7b " ++ b.placeholderRef ++ " \x7d\x7d")) }
      ∧ ∀ d', g.toPullStep
          = GitRepository.toPullStep { g with credentials := .block ⟨d', b.placeholderRef⟩ })
    ∧ (∀ d s, g.credentials = .dict d → d.access_token = some (.secret s) →
      g.toPullStep = .ok { repository := g.url, branch := g.branch,
                           credentials := some (.inlineDict d.username d.password d.token
                             ("\x7b\x7b " ++ s.placeholderRef ++ " \x7d\x7d")) }
      ∧ ∀ v', g.toPullStep
          = GitRepository.toPullStep
              { g with credentials := .dict { d with access_token := some (.secret ⟨s.placeholderRef, v'⟩) } })
    ∧ (∀ d t, g.credentials = .dict d → d.access_token = some (.str t) →
      g.toPullStep
        = .error "Please save your access token as a Secret block before converting this storage object to a pull step.") := by
  refine ⟨?_, ?_, ?_⟩
  · intro b hb
    constructor
    · unfold GitRepository.toPullStep
      rw [hb]
    · intro d'
      unfold GitRepository.toPullStep
      rw [hb]
  · intro d s hd hs
    constructor
    · unfold GitRepository.toPullStep
      rw [hd]
      dsimp only
      rw [hs]
    · intro v'
      unfold GitRepository.toPullStep
      rw [hd]
      dsimp only
      rw [hs]
  · intro d t hd ht
    unfold GitRepository.toPullStep
    rw [hd]
    dsimp only
    rw [ht]

/-- C3, witness at concrete descriptors: the secret-backed and block-backed
descriptors emit placeholder strings, the raw-token descriptor errors. -/
theorem claim_C3_witness :
    exampleRepoSecret.toPullStep
      = .ok { repository := "https://example.com/org/repo.git", branch := none,
              credentials := some (.inlineDict none none none
                "\x7b\x7b prefect.blocks.secret.my-token \x7d\x7d") }
    ∧ exampleRepoBlock.toPullStep
      = .ok { repository := "https://example.com/org/repo.git", branch := none,
              credentials := some (.blockPlaceholder
                "\x7b\x7b prefect.blocks.github-credentials.gh \x7d\x7d") }
    ∧ exampleRepoTok.toPullStep
      = .error "Please save your access token as a Secret block before converting this storage object to a pull step." := by
  refine ⟨?_, ?_, ?_⟩
  · exact ((claim_C3 exampleRepoSecret).2.1 _ _ rfl rfl).1
  · exact ((claim_C3 exampleRepoBlock).1 _ rfl).1
  · exact (claim_C3 exampleRepoTok).2.2 _ "s3cret" rfl rfl

/-- C4, counterexample: for the URL `https://example.com/org/my.gitx.git`
the derived name is `myx` — `.replace(".git", "")` removes every
occurrence of `.git`, not just a trailing suffix, so the name is not the
last path segment with the `.git` suffix stripped (which would be
`my.gitx`). -/
theorem claim_C4_cex :
    (mkGitRepository ⟨"https", ⟨none, "example.com", none⟩, "/org/my.gitx.git", "", "", ""⟩
        none none none false (some 60) []).map (fun g => g.name) = .ok "myx"
    ∧ ("myx" : String) ≠ "my.gitx" := by
  exact ⟨rfl, by decide⟩

/-- C4, amended: a descriptor constructed without an explicit name derives
it from the URL's last path segment with **all** occurrences of `.git`
removed, suffixed with `-branch` when a branch is set (a non-empty
string); distinct set branches always yield distinct names. -/
theorem claim_C4 (url : PyUrl) (credentials : Option Credentials)
    (branch : Option String) (subs : Bool) (pi : Option Nat) (cwd : DirPath) :
    (∀ g, mkGitRepository url credentials none branch subs pi cwd = .ok g →
      g.name = (match branch with
        | some b =>
          if b != "" then pyReplace (lastSlashSegment url.path) ".git" "" ++ "-" ++ b
          else pyReplace (lastSlashSegment url.path) ".git" ""
        | none => pyReplace (lastSlashSegment url.path) ".git" ""))
    ∧ (∀ b1 b2 g1 g2, b1 ≠ b2 →
      mkGitRepository url credentials none (some b1) subs pi cwd = .ok g1 →
      mkGitRepository url credentials none (some b2) subs pi cwd = .ok g2 →
      g1.name ≠ g2.name) := by
  constructor
  · intro g h
    unfold mkGitRepository at h
    cases credentials with
    | none =>
      dsimp only at h
      split at h
      · exact Except.noConfusion h
      · injection h with h
        rw [← h]
    | some c =>
      dsimp only at h
      split at h
      · exact Except.noConfusion h
      · injection h with h
        rw [← h]
  · intro b1 b2 g1 g2 hne h1 h2
    unfold mkGitRepository at h1 h2
    cases credentials with
    | none =>
      dsimp only at h1 h2
      split at h1
      · exact Except.noConfusion h1
      · split at h2
        · exact Except.noConfusion h2
        · injection h1 with h1
          injection h2 with h2
          rw [← h1, ← h2]
          exact defaultName_inj (pyReplace (lastSlashSegment url.path) ".git" "") b1 b2 hne
    | some c =>
      dsimp only at h1 h2
      split at h1
      · exact Except.noConfusion h1
      · split at h2
        · exact Except.noConfusion h2
        · injection h1 with h1
          injection h2 with h2
          rw [← h1, ← h2]
          exact defaultName_inj (pyReplace (lastSlashSegment url.path) ".git" "") b1 b2 hne

/-- C4, witness for the amended theorem: for `exampleUrl` with branches
`dev` and `prod`, the derived names are `repo-dev` and `repo-prod`, and
they differ. -/
theorem claim_C4_witness :
    (mkGitRepository exampleUrl none none (some "dev") false (some 60) []).map (fun g => g.name)
      = .ok "repo-dev"
    ∧ (∀ g1 g2,
      mkGitRepository exampleUrl none none (some "dev") false (some 60) [] = .ok g1 →
      mkGitRepository exampleUrl none none (some "prod") false (some 60) [] = .ok g2 →
      g1.name ≠ g2.name) := by
  constructor
  · have h := (claim_C4 exampleUrl none (some "dev") false (some 60) []).1
    cases hmk : mkGitRepository exampleUrl none none (some "dev") false (some 60) [] with
    | error e => simp [mkGitRepository, pyTruthyOpt] at hmk
    | ok g =>
      rw [Except.map, h g hmk]
      rfl
  · intro g1 g2 h1 h2
    exact (claim_C4 exampleUrl none (some "dev") false (some 60) []).2 "dev" "prod" g1 g2
      (by decide) h1 (by exact h2)

/-- C5, counterexample: the credentials dictionary `{"username": ""}`
contains none of the access-token, token, or password fields, yet
construction succeeds — and the "must supply a token or password" error
first surfaces when `pull_code` builds the clone URL. -/
theorem claim_C5_cex :
    ((mkGitRepository ⟨"https", ⟨none, "example.com", none⟩, "/org/repo.git", "", "", ""⟩
        (some (.dict { username := some "" })) none none false (some 60) []).toOption.isSome = true)
    ∧ ((mkGitRepository ⟨"https", ⟨none, "example.com", none⟩, "/org/repo.git", "", "", ""⟩
        (some (.dict { username := some "" })) none none false (some 60) []).bind
        (fun g => g.repositoryUrlWithCredentials)
      = .error "Please provide a `token` or `password` in your Credentials block to clone a repo.") := by
  exact ⟨rfl, rfl⟩

/-- C5, amended: for credentials dictionaries lacking all three secret
fields, construction fails only when the username is truthy (and with the
"username requires access token" error, not the token error); otherwise
construction succeeds and the "must supply a token or password" error is
raised at clone time by `_repository_url_with_credentials` — unless the
dictionary is entirely empty, in which case no error is ever raised. -/
theorem claim_C5 (url : PyUrl) (name branch : Option String) (subs : Bool)
    (pi : Option Nat) (cwd : DirPath) (d : CredDict)
    (hat : d.access_token = none) (htk : d.token = none) (hpw : d.password = none) :
    (pyTruthyOpt d.username = true →
      mkGitRepository url (some (.dict d)) name branch subs pi cwd
        = .error "If a username is provided, an access token must also be provided.")
    ∧ (pyTruthyOpt d.username = false → d.isEmptyDict = false →
      (mkGitRepository url (some (.dict d)) name branch subs pi cwd).toOption.isSome = true
      ∧ (mkGitRepository url (some (.dict d)) name branch subs pi cwd).bind
          (fun g => g.repositoryUrlWithCredentials)
        = .error "Please provide a `token` or `password` in your Credentials block to clone a repo.")
    ∧ (d.isEmptyDict = true →
      (mkGitRepository url (some (.dict d)) name branch subs pi cwd).toOption.isSome = true
      ∧ (mkGitRepository url (some (.dict d)) name branch subs pi cwd).bind
          (fun g => g.repositoryUrlWithCredentials)
        = (mkGitRepository url (some (.dict d)) name branch subs pi cwd).map
            (fun g => g.url)) := by
  refine ⟨?_, ?_, ?_⟩
  · intro hu
    unfold mkGitRepository
    dsimp only
    rw [if_pos (by simp [hu, hat])]
  · intro hu hne
    unfold mkGitRepository
    dsimp only
    rw [if_neg (by simp [hu, hat])]
    refine ⟨rfl, ?_⟩
    show GitRepository.repositoryUrlWithCredentials _ = _
    unfold GitRepository.repositoryUrlWithCredentials
    rw [if_neg (by simp [Credentials.pyBool, hne])]
    dsimp only [Credentials.asDict]
    rw [hat, htk, hpw]
    rfl
  · intro hemp
    have hu : pyTruthyOpt d.username = false := by
      have : d.username.isNone = true := by
        simp only [CredDict.isEmptyDict, Bool.and_eq_true] at hemp
        exact hemp.1.1.1
      cases hd : d.username with
      | none => rfl
      | some s => rw [hd] at this; simp at this
    unfold mkGitRepository
    dsimp only
    rw [if_neg (by simp [hu, hat])]
    refine ⟨rfl, ?_⟩
    show GitRepository.repositoryUrlWithCredentials _ = _
    unfold GitRepository.repositoryUrlWithCredentials
    rw [if_pos (by simp [Credentials.pyBool, hemp])]
    rfl

/-- C5, witness for the amended theorem at the three concrete credential
dictionaries `{"username": "alice"}`, `{"username": ""}` and `{}`. -/
theorem claim_C5_witness :
    mkGitRepository exampleUrl (some (.dict { username := some "alice" })) none none false (some 60) []
      = .error "If a username is provided, an access token must also be provided."
    ∧ (mkGitRepository exampleUrl (some (.dict { username := some "" })) none none false (some 60) []).bind
        (fun g => g.repositoryUrlWithCredentials)
      = .error "Please provide a `token` or `password` in your Credentials block to clone a repo."
    ∧ (mkGitRepository exampleUrl (some (.dict {})) none none false (some 60) []).bind
        (fun g => g.repositoryUrlWithCredentials)
      = (mkGitRepository exampleUrl (some (.dict {})) none none false (some 60) []).map
          (fun g => g.url) := by
  refine ⟨?_, ?_, ?_⟩
  · exact (claim_C5 exampleUrl none none false (some 60) [] { username := some "alice" }
      rfl rfl rfl).1 rfl
  · exact ((claim_C5 exampleUrl none none false (some 60) [] { username := some "" }
      rfl rfl rfl).2.1 rfl rfl).2
  · exact ((claim_C5 exampleUrl none none false (some 60) [] {} rfl rfl rfl).2.2 rfl).2

/-- C6, counterexample: on a Bitbucket-Server-style host with username
`alice` and secret `alice:tok` (the username already embedded in the
secret), the formatter returns `alice:alice:tok` — the username **is**
duplicated, contradicting the claim's "it is not duplicated". -/
theorem claim_C6_cex :
    formatTokenFromCredentials "mybitbucketserver.internal"
        (some "alice") none none (some "alice:tok")
      = .ok "alice:alice:tok"
    ∧ ("alice:alice:tok" : String) ≠ "alice:tok" := by
  exact ⟨rfl, by decide⟩

/-- C6, amended: on a Bitbucket-Server-style host, whenever a truthy
username is supplied the formatter returns `username:secret`
unconditionally (even when the username is already embedded in the
secret); with no truthy username it errors when the secret contains no
`:`-separated user part, and returns the secret unchanged when it does. -/
theorem claim_C6 (netloc : String) (hbs : pyIn "bitbucketserver" netloc = true)
    (username password token access_token : Option String) (tok : String)
    (htok : firstTruthy [access_token, token, password] = some tok) :
    (pyTruthyOpt username = true →
      formatTokenFromCredentials netloc username password token access_token
        = .ok (username.getD "" ++ ":" ++ tok))
    ∧ (pyTruthyOpt username = false → pyIn ":" tok = false →
      formatTokenFromCredentials netloc username password token access_token
        = .error "Please provide a `username` and a `password` or `token` in your BitBucketCredentials block to clone a repo from BitBucket Server.")
    ∧ (pyTruthyOpt username = false → pyIn ":" tok = true →
      formatTokenFromCredentials netloc username password token access_token
        = .ok tok) := by
  unfold formatTokenFromCredentials
  rw [htok]
  refine ⟨?_, ?_, ?_⟩
  · intro hu
    dsimp only
    rw [if_pos hu]
  · intro hu hcolon
    dsimp only
    rw [if_neg (by simp [hu]), if_pos hbs, if_pos (by simp [hu, hcolon])]
  · intro hu hcolon
    dsimp only
    rw [if_neg (by simp [hu]), if_pos hbs, if_neg (by simp [hu, hcolon]),
      if_neg (by simp [hu])]

/-- C6, witness for the amended theorem: `alice`/`tok` yields `alice:tok`
(the spec's own example), a bare secret without `:` errors, and a secret
carrying its own user part is returned unchanged. -/
theorem claim_C6_witness :
    formatTokenFromCredentials "mybitbucketserver.internal" (some "alice") none none (some "tok")
      = .ok "alice:tok"
    ∧ formatTokenFromCredentials "mybitbucketserver.internal" none none none (some "tok")
      = .error "Please provide a `username` and a `password` or `token` in your BitBucketCredentials block to clone a repo from BitBucket Server."
    ∧ formatTokenFromCredentials "mybitbucketserver.internal" none none (some "user:tok") none
      = .ok "user:tok" := by
  refine ⟨?_, ?_, ?_⟩
  · exact (claim_C6 "mybitbucketserver.internal" (by decide)
      (some "alice") none none (some "tok") "tok" rfl).1 rfl
  · exact (claim_C6 "mybitbucketserver.internal" (by decide)
      none none none (some "tok") "tok" rfl).2.1 rfl (by decide)
  · exact (claim_C6 "mybitbucketserver.internal" (by decide)
      none none (some "user:tok") none "user:tok" rfl).2.2 rfl (by decide)

/-- C8: two descriptors compare equal iff `url`, `branch` and `name` all
match; `credentials` and `pull_interval` are excluded from identity, and
differing `url` or `branch` makes them unequal. -/
theorem claim_C8 (a b : GitRepository) :
    (GitRepository.eqDescriptor a b = true
      ↔ a.url = b.url ∧ a.branch = b.branch ∧ a.name = b.name)
    ∧ (∀ (c : Credentials) (i : Option Nat),
      GitRepository.eqDescriptor a { a with credentials := c, pull_interval := i } = true)
    ∧ (a.url ≠ b.url ∨ a.branch ≠ b.branch →
      GitRepository.eqDescriptor a b = false) := by
  refine ⟨?_, ?_, ?_⟩
  · unfold GitRepository.eqDescriptor
    simp [Bool.and_eq_true, beq_iff_eq, and_assoc]
  · intro c i
    unfold GitRepository.eqDescriptor
    simp
  · intro h
    unfold GitRepository.eqDescriptor
    rcases h with h | h
    · simp [h]
    · simp [h]

/-- C8, witness: same identity with different credentials and interval ⇒
equal; different branch ⇒ unequal. -/
theorem claim_C8_witness :
    GitRepository.eqDescriptor exampleRepo
      { exampleRepo with credentials := .dict { access_token := some (.str "s3cret") },
                         pull_interval := none } = true
    ∧ GitRepository.eqDescriptor exampleRepo { exampleRepo with branch := some "dev" } = false := by
  refine ⟨(claim_C8 exampleRepo exampleRepo).2.1 (.dict { access_token := some (.str "s3cret") }) none, ?_⟩
  exact (claim_C8 exampleRepo { exampleRepo with branch := some "dev" }).2.2 (Or.inr (by decide))

/-- C9: `destination` equals the base path joined with `name` after any
`set_base_path` call, which mutates nothing else; when `set_base_path` is
never called the base path is the working directory supplied at
construction (`Path.cwd()`). -/
theorem claim_C9 :
    (∀ (g : GitRepository) (p : DirPath),
      (g.setBasePath p).destination = p ++ [g.name]
      ∧ (g.setBasePath p).url = g.url
      ∧ (g.setBasePath p).branch = g.branch
      ∧ (g.setBasePath p).name = g.name
      ∧ (g.setBasePath p).credentials = g.credentials
      ∧ (g.setBasePath p).include_submodules = g.include_submodules
      ∧ (g.setBasePath p).pull_interval = g.pull_interval)
    ∧ (∀ url credentials name branch subs pi cwd g,
      mkGitRepository url credentials name branch subs pi cwd = .ok g →
      g.storage_base_path = cwd ∧ g.destination = cwd ++ [g.name]) := by
  constructor
  · intro g p
    exact ⟨rfl, rfl, rfl, rfl, rfl, rfl, rfl⟩
  · intro url credentials name branch subs pi cwd g h
    unfold mkGitRepository at h
    cases credentials with
    | none =>
      dsimp only at h
      split at h
      · exact Except.noConfusion h
      · injection h with h
        rw [← h]
        exact ⟨rfl, rfl⟩
    | some c =>
      dsimp only at h
      split at h
      · exact Except.noConfusion h
      · injection h with h
        rw [← h]
        exact ⟨rfl, rfl⟩

/-- C9, witness: a concrete relocation and a concrete construction. -/
theorem claim_C9_witness :
    (exampleRepo.setBasePath ["", "tmp"]).destination = ["", "tmp", "repo"]
    ∧ (exampleRepo.setBasePath ["", "tmp"]).pull_interval = exampleRepo.pull_interval
    ∧ exampleRepoCwd.storage_base_path = ["", "opt"]
    ∧ exampleRepoCwd.destination = ["", "opt", "repo"] := by
  have h1 := claim_C9.1 exampleRepo ["", "tmp"]
  have h2 := claim_C9.2 exampleUrl none none none false (some 60) ["", "opt"]
    exampleRepoCwd rfl
  exact ⟨h1.1, h1.2.2.2.2.2.2, h2.1, h2.2⟩

end RunnerStorage
